import Mathlib

/-!
Shallow embedding of the message-processing pipeline in
`src/app/agents/chat_agent.py` (classes `GroqChatModel` and `ChatAgent`).

Modelling conventions:
* A raised Python exception is an `Except.error` carrying a `PyError`
  (the exception abstracted to its message).
* The external collaborators that the file only calls — the Groq client
  (`client.chat.completions.create`), the `DocumentProcessor` instance
  (`process_text`) and the `MemoryManager` (`get_relevant_context`) —
  are oracles: plain functions supplied as parameters, so every theorem
  quantifies over their behaviour.
* `logging.error` calls are made observable by threading an explicit list
  of log lines through each operation, and the single provider call per
  `_generate` invocation is made observable by a `providerCalls` counter.
-/

set_option autoImplicit false

/-- A Python exception, abstracted to the message it carries. -/
structure PyError where
  msg : String
deriving DecidableEq

/-- LangChain message objects handled by `chat_agent.py` (`HumanMessage`,
`AIMessage`, `SystemMessage`); `other` stands for any further
`BaseMessage` subclass, carrying its role tag and content. -/
inductive BaseMessage where
  | human (content : String)
  | ai (content : String)
  | system (content : String)
  | other (role : String) (content : String)
deriving DecidableEq

/-- The `content` attribute of a LangChain message. -/
def BaseMessage.content : BaseMessage → String
  | .human c => c
  | .ai c => c
  | .system c => c
  | .other _ c => c

/-- One provider wire message: the `{"role": ..., "content": ...}` dict built
inside `GroqChatModel._generate` (lines 64–69). -/
structure ChatMsg where
  role : String
  content : String
deriving DecidableEq

/-- LangChain `ChatGeneration`: wraps one generated message. -/
structure ChatGeneration where
  message : BaseMessage
deriving DecidableEq

/-- LangChain `ChatResult`: the list of generations returned by `_generate`. -/
structure ChatResult where
  generations : List ChatGeneration
deriving DecidableEq

/-- `response.generations[0].message.content` (line 213).
`_generate` always returns exactly one generation on success (lines 80–81),
so the index-0 access never hits the default. -/
def ChatResult.firstContent (r : ChatResult) : String :=
  (r.generations.headD { message := BaseMessage.ai "" }).message.content

/-- One request to the Groq chat-completions endpoint, as assembled by the
`client.chat.completions.create(...)` call (lines 72–78). -/
structure ChatRequest where
  model : String
  temperature : ℚ
  messages : List ChatMsg
  stop : Option (List String)

/-- Oracle for `client.chat.completions.create`: on success it yields
`completion.choices[0].message.content`; an `Except.error` is any
provider-level exception (network, auth, rate limit, malformed response). -/
abbrev Provider := ChatRequest → Except PyError String

/-- The state of a `GroqChatModel` after `__init__` (lines 31–36): the held
credentials, model name and temperature.  Python floats carry exact decimal
literals here, so temperature is modelled as an exact rational. -/
structure GroqChatModel where
  api_key : String
  model : String
  temperature : ℚ
deriving DecidableEq

/-- The message-conversion loop of `GroqChatModel._generate` (lines 62–69):
`HumanMessage` → role `user`, `AIMessage` → role `assistant`,
`SystemMessage` → role `system`; any other message class matches no
`isinstance` branch and is skipped. -/
def convertMessages : List BaseMessage → List ChatMsg
  | [] => []
  | .human c :: rest => { role := "user", content := c } :: convertMessages rest
  | .ai c :: rest => { role := "assistant", content := c } :: convertMessages rest
  | .system c :: rest => { role := "system", content := c } :: convertMessages rest
  | .other _ _ :: rest => convertMessages rest

/-- Observable outcome of one `_generate` call: the returned/raised value,
the log lines emitted, and how many times the provider was invoked. -/
structure GenOutcome where
  result : Except PyError ChatResult
  log : List String
  providerCalls : ℕ

/-- `GroqChatModel._generate` (lines 58–85): convert the messages, issue one
call to the provider with the configured model name and temperature, wrap the
top completion as an assistant message; on any provider exception, log
`Error generating response: ...` and re-raise the same exception. -/
def GroqChatModel.generate (llm : GroqChatModel) (provider : Provider)
    (messages : List BaseMessage) (stop : Option (List String)) : GenOutcome :=
  let chat_messages := convertMessages messages
  match provider { model := llm.model, temperature := llm.temperature,
                   messages := chat_messages, stop := stop } with
  | .ok content =>
      { result := .ok { generations := [{ message := BaseMessage.ai content }] },
        log := [],
        providerCalls := 1 }
  | .error e =>
      { result := .error e,
        log := ["Error generating response: " ++ e.msg],
        providerCalls := 1 }

/-- A retrieved document as produced by `DocumentProcessor.process_text`;
only its `page_content` field is read by `chat_agent.py` (line 203). -/
structure Document where
  page_content : String
deriving DecidableEq

/-- Oracle for the external `DocumentProcessor.process_text` method
(line 194): raw text in, a list of document chunks out, or an exception. -/
abbrev DocProcessor := String → Except PyError (List Document)

/-- The `MemoryManager` as the agent sees it: the `get_relevant_context`
capability is duck-typed (`hasattr` probe, line 191), so it is optional;
when present it may raise, or return `None` or a string (line 192). -/
structure Memory where
  get_relevant_context : Option (String → Except PyError (Option String))

/-- Python truthiness of an optional string (`config.get('api_key')` at
line 93, `if context:` at line 193): `None` and `""` are falsy. -/
def optStrTruthy : Option String → Bool
  | none => false
  | some s => !s.isEmpty

/-- The `config` dict consumed by `ChatAgent.__init__`: `config.get(k)`
yields `none` when the key is absent. -/
structure AgentConfig where
  api_key : Option String := none
  model : Option String := none
  temperature : Option ℚ := none
  system_prompt : Option String := none

/-- The default system prompt literal of `ChatAgent.__init__`
(lines 110–163), beginning with the newline that follows the opening
triple quote. -/
def defaultSystemPrompt : String :=
  "\nYou are an advanced multi-modal AI assistant with superior cognitive abilities, domain expertise, and access to specialized tools and workflows. Your purpose is to assist users effectively while maintaining high standards of accuracy, ethics, and user experience.\n\nCore Capabilities:\n- Process and analyze: text, images, audio, and structured data\n- Access enterprise knowledge bases and documentation\n- Execute complex workflows and tool integrations\n- Maintain contextual awareness across conversations\n- Generate and edit various content formats\n\nInteraction Guidelines:\n1. Approach each task systematically:\n   - Analyze requirements thoroughly\n   - Break down complex tasks\n   - Select appropriate tools/workflows\n   - Execute with precision\n   - Verify results\n\n2. Knowledge Integration:\n   - Leverage provided context first\n   - Use tool-augmented search when needed\n   - Synthesize information effectively\n   - Cite sources when applicable\n   - Acknowledge knowledge boundaries\n\n3. Response Principles:\n   - Prioritize accuracy over speed\n   - Maintain appropriate detail level\n   - Structure information clearly\n   - Adapt tone to context\n   - Ensure actionable outputs\n\n4. Tool Utilization:\n   - Select optimal tools for tasks\n   - Execute workflows efficiently\n   - Handle errors gracefully\n   - Report results clearly\n   - Suggest workflow improvements\n\n5. Safety & Ethics:\n   - Maintain user privacy\n   - Follow security protocols\n   - Uphold ethical guidelines\n   - Flag sensitive requests\n   - Ensure responsible AI use\n\nWhen responding:\n- If uncertain, acknowledge limitations\n- If context is insufficient, request clarification\n- If task exceeds capabilities, explain why\n- If multiple approaches exist, outline options\n- If errors occur, provide clear explanations\n\nRemember: Your goal is to be maximally helpful while maintaining high standards of accuracy, ethics, and user experience across all interaction modalities."

/-- The state of a `ChatAgent` after a successful `__init__`: the owned
model adapter, the external document processor instance constructed at
line 106, the (initially unbound) memory reference, and the system prompt. -/
structure ChatAgent where
  llm : GroqChatModel
  doc_processor : DocProcessor
  memory : Option Memory
  system_prompt : String

/-- `ChatAgent.__init__` (lines 90–163): raise
`ValueError("Groq API key is not configured")` when `config.get('api_key')`
is falsy, otherwise build the `GroqChatModel` with the source defaults
(model `mixtral-8x7b-32768`, temperature `0.7`), attach the external
`DocumentProcessor` instance `dp`, leave `memory` unbound and pick the
configured or default system prompt.  No other validation is performed. -/
def ChatAgent.init (config : AgentConfig) (dp : DocProcessor) :
    Except PyError ChatAgent :=
  if optStrTruthy config.api_key then
    .ok { llm := { api_key := config.api_key.getD "",
                   model := config.model.getD "mixtral-8x7b-32768",
                   temperature := config.temperature.getD (7 / 10) },
          doc_processor := dp,
          memory := none,
          system_prompt := config.system_prompt.getD defaultSystemPrompt }
  else
    .error { msg := "Groq API key is not configured" }

/-- Temperature of the model held by a successfully constructed agent,
`none` when construction raised. -/
def initTemperature : Except PyError ChatAgent → Option ℚ
  | .ok a => some a.llm.temperature
  | .error _ => none

/-- The fixed fallback response of `process_message` (lines 220–222):
three adjacent Python string literals. -/
def fallbackResponse : String :=
  "I apologize, but I encountered an error processing your message. " ++
  "This might be due to API limits or connectivity issues. " ++
  "Please try again later or contact support if the issue persists."

/-- The prompt-assembly block of `process_message` (lines 196–207): the
system prompt, then — only when `relevant_docs` is truthy — one system
message `Context:\n` + the chunks' `page_content` joined with newlines,
then the user message. -/
def assembleMessages (system_prompt : String) (relevant_docs : List Document)
    (message : String) : List BaseMessage :=
  let messages := [BaseMessage.system system_prompt]
  let messages :=
    if relevant_docs.isEmpty then messages
    else messages ++ [BaseMessage.system ("Context:\n" ++
      String.intercalate "\n" (relevant_docs.map (fun doc => doc.page_content)))]
  messages ++ [BaseMessage.human message]

/-- The retrieval-and-chunking block of `process_message` (lines 190–194):
`relevant_docs` stays `[]` when no memory is bound, when the memory lacks
`get_relevant_context`, or when the returned context is falsy; a raised
exception propagates to the surrounding `try`. -/
def ChatAgent.retrievalStep (a : ChatAgent) (message : String) :
    Except PyError (List Document) :=
  match a.memory with
  | none => .ok []
  | some mem =>
    match mem.get_relevant_context with
    | none => .ok []
    | some grc =>
      match grc message with
      | .error e => .error e
      | .ok context =>
        if optStrTruthy context then a.doc_processor (context.getD "")
        else .ok []

/-- The dict returned by `process_message` (lines 212–215 / 219–224). -/
structure PipelineResult where
  response : String
  source_documents : List Document
deriving DecidableEq

/-- Observable outcome of one `process_message` call: the returned dict,
the log lines emitted, and how many times the provider was invoked. -/
structure ProcessOutcome where
  result : PipelineResult
  log : List String
  providerCalls : ℕ
deriving DecidableEq

/-- `ChatAgent.process_message` (lines 179–224): retrieve and chunk context,
assemble the prompt, call `_generate`; on success return the completion text
with the retrieved chunks, and on ANY exception inside the `try` block log
`Error processing message: ...` and return the fixed fallback dict.  The
embedding is a total function: no exception escapes. -/
def ChatAgent.process_message (a : ChatAgent) (provider : Provider)
    (message : String) : ProcessOutcome :=
  match a.retrievalStep message with
  | .error e =>
      { result := { response := fallbackResponse, source_documents := [] },
        log := ["Error processing message: " ++ e.msg],
        providerCalls := 0 }
  | .ok relevant_docs =>
      let gen := a.llm.generate provider
        (assembleMessages a.system_prompt relevant_docs message) none
      match gen.result with
      | .ok response =>
          { result := { response := response.firstContent,
                        source_documents := relevant_docs },
            log := gen.log,
            providerCalls := gen.providerCalls }
      | .error e =>
          { result := { response := fallbackResponse, source_documents := [] },
            log := gen.log ++ ["Error processing message: " ++ e.msg],
            providerCalls := gen.providerCalls }

/-- The exact provider request issued for a turn whose retrieval step
produced `relevant_docs` (what `_generate` sends at lines 72–78 when called
from line 210). -/
def ChatAgent.turnRequest (a : ChatAgent) (relevant_docs : List Document)
    (message : String) : ChatRequest :=
  { model := a.llm.model,
    temperature := a.llm.temperature,
    messages := convertMessages (assembleMessages a.system_prompt relevant_docs message),
    stop := none }

/-- The first failing step of a turn, if any: the retrieval/chunking step,
then the provider call (prompt assembly is pure and cannot fail). -/
def ChatAgent.turnError (a : ChatAgent) (provider : Provider)
    (message : String) : Option PyError :=
  match a.retrievalStep message with
  | .error e => some e
  | .ok relevant_docs =>
    match provider (a.turnRequest relevant_docs message) with
    | .error e => some e
    | .ok _ => none

/-! ### Concrete fixtures used by witnesses and counterexamples -/

/-- A model adapter built from api key `k`. -/
def llmK : GroqChatModel := { api_key := "k", model := "m", temperature := 7 / 10 }

/-- A document processor whose chunking always yields no chunks. -/
def dpNone : DocProcessor := fun _ => .ok []

/-- The single chunk used in end-to-end fixtures. -/
def docParis : Document := { page_content := "Paris is the capital of France" }

/-- A document processor that always yields the single chunk `docParis`. -/
def dpOne : DocProcessor := fun _ => .ok [docParis]

/-- A memory whose `get_relevant_context` raises. -/
def memRaises : Memory :=
  { get_relevant_context := some (fun _ => .error { msg := "boom" }) }

/-- A memory whose `get_relevant_context` returns the text `ctx`. -/
def memCtx : Memory :=
  { get_relevant_context := some (fun _ => .ok (some "ctx")) }

/-- A provider that always answers `Hi there`. -/
def providerHi : Provider := fun _ => .ok "Hi there"

/-- A provider that always fails with a rate-limit error. -/
def providerFail : Provider := fun _ => .error { msg := "rate limit" }

/-- An agent whose bound retriever raises. -/
def agentA : ChatAgent :=
  { llm := llmK, doc_processor := dpNone, memory := some memRaises,
    system_prompt := "sp" }

/-- An agent whose retriever returns text that chunks to `[docParis]`. -/
def agentC : ChatAgent :=
  { llm := llmK, doc_processor := dpOne, memory := some memCtx,
    system_prompt := "sp" }

/-- An agent with no memory bound. -/
def agentD : ChatAgent :=
  { llm := llmK, doc_processor := dpNone, memory := none,
    system_prompt := "sp" }

/-- An agent whose retriever returns truthy text that chunks to `[]`. -/
def agentE : ChatAgent :=
  { llm := llmK, doc_processor := dpNone, memory := some memCtx,
    system_prompt := "sp" }

/-- A config whose api key is present but empty. -/
def cfgNoKey : AgentConfig := { api_key := some "" }

/-- A config with a valid key and an out-of-range temperature. -/
def cfgHot : AgentConfig := { api_key := some "k", temperature := some 5 }

/-- A config with a valid key and everything else defaulted. -/
def cfgK : AgentConfig := { api_key := some "k" }

/-- Specification-side view of the role mapping of lines 64–69: the provider
pair a single LangChain message is translated to, `none` when the message is
dropped. -/
def roleMapping : BaseMessage → Option ChatMsg
  | .human c => some { role := "user", content := c }
  | .ai c => some { role := "assistant", content := c }
  | .system c => some { role := "system", content := c }
  | .other _ _ => none

/-- Whether `ChatAgent.__init__` returned an agent rather than raising. -/
def constructionOk : Except PyError ChatAgent → Bool
  | .ok _ => true
  | .error _ => false

/-! ### Helper lemmas shared by several claims -/

/-- When the retrieval/chunking step raises, `process_message` returns the
fallback dict, logs the cause and never reaches the provider. -/
theorem retrievalStep_error_outcome (a : ChatAgent) (p : Provider) (m : String)
    (e : PyError) (h : a.retrievalStep m = .error e) :
    a.process_message p m =
      { result := { response := fallbackResponse, source_documents := [] },
        log := ["Error processing message: " ++ e.msg],
        providerCalls := 0 } := by
  unfold ChatAgent.process_message
  rw [h]

/-- When retrieval succeeds and the provider answers, `process_message`
returns the completion with the retrieved chunks after one provider call. -/
theorem providerOk_outcome (a : ChatAgent) (p : Provider) (m : String)
    (docs : List Document) (text : String)
    (h1 : a.retrievalStep m = .ok docs)
    (h2 : p (a.turnRequest docs m) = .ok text) :
    a.process_message p m =
      { result := { response := text, source_documents := docs },
        log := [], providerCalls := 1 } := by
  unfold ChatAgent.turnRequest at h2
  simp only [ChatAgent.process_message, h1, GroqChatModel.generate, h2,
    ChatResult.firstContent, List.headD, BaseMessage.content]

/-- When retrieval succeeds but the provider raises, `process_message`
returns the fallback dict with both the adapter log line and the
orchestrator log line, after one provider call. -/
theorem providerError_outcome (a : ChatAgent) (p : Provider) (m : String)
    (docs : List Document) (e : PyError)
    (h1 : a.retrievalStep m = .ok docs)
    (h2 : p (a.turnRequest docs m) = .error e) :
    a.process_message p m =
      { result := { response := fallbackResponse, source_documents := [] },
        log := ["Error generating response: " ++ e.msg,
                "Error processing message: " ++ e.msg],
        providerCalls := 1 } := by
  unfold ChatAgent.turnRequest at h2
  simp only [ChatAgent.process_message, h1, GroqChatModel.generate, h2,
    List.cons_append, List.nil_append]

/-! ### Claim theorems -/

/-- C2: for every system prompt, chunk sequence and user text, the assembled
list is exactly one system message with the prompt, then — iff the chunks are
non-empty — exactly one additional system message whose content is
`Context:` + newline + the chunks' text joined with newlines, then one user
message; its length is 2 when the chunks are empty and 3 otherwise. -/
theorem assembleMessages_exact_shape (sp : String) (cs : List Document)
    (u : String) :
    assembleMessages sp cs u =
      (if cs.isEmpty then
        [BaseMessage.system sp, BaseMessage.human u]
      else
        [BaseMessage.system sp,
         BaseMessage.system ("Context:\n" ++
           String.intercalate "\n" (cs.map (fun doc => doc.page_content))),
         BaseMessage.human u]) ∧
    (assembleMessages sp cs u).length = (if cs.isEmpty then 2 else 3) := by
  cases cs <;> simp [assembleMessages]

/-- C6: the adapter's message conversion is exactly `filterMap roleMapping`:
each user/assistant/system message maps to the corresponding provider role
pair, any other message is silently dropped, and the relative order of the
kept messages is preserved. -/
theorem convertMessages_is_filterMap (msgs : List BaseMessage) :
    convertMessages msgs = msgs.filterMap roleMapping := by
  induction msgs with
  | nil => rfl
  | cons msg rest ih => cases msg <;> simp [convertMessages, roleMapping, ih]

/-- C3: construction succeeds exactly when the configured `api_key` is
present and non-empty; otherwise `__init__` raises the configuration
`ValueError` to its caller. -/
theorem chatAgent_init_validates_api_key (config : AgentConfig)
    (dp : DocProcessor) :
    constructionOk (ChatAgent.init config dp) = optStrTruthy config.api_key ∧
    (optStrTruthy config.api_key = false →
      ChatAgent.init config dp =
        .error { msg := "Groq API key is not configured" }) := by
  unfold ChatAgent.init
  cases h : optStrTruthy config.api_key <;> simp [h, constructionOk]

/-- C3 witness: the config with an empty `api_key` makes construction raise
the configuration error. -/
theorem chatAgent_init_validates_api_key_witness :
    ChatAgent.init cfgNoKey dpNone =
      .error { msg := "Groq API key is not configured" } :=
  (chatAgent_init_validates_api_key cfgNoKey dpNone).2 rfl

/-- C9 counterexample: the config `{api_key: "k", temperature: 5}` is
accepted at construction and the built model carries temperature 5, which
lies outside [0,1] — no range validation happens. -/
theorem init_accepts_out_of_range_temperature :
    initTemperature (ChatAgent.init cfgHot dpNone) = some 5 ∧
    ¬ ((5 : ℚ) ≤ 1) := by
  constructor
  · rfl
  · norm_num

/-- C9 amended: for every config accepted at construction, the model's
temperature is exactly the configured value, with 0.7 used when the config
omits it; no [0,1] validation is performed. -/
theorem init_temperature_passthrough (config : AgentConfig)
    (dp : DocProcessor) (h : optStrTruthy config.api_key = true) :
    initTemperature (ChatAgent.init config dp) =
      some (config.temperature.getD (7 / 10)) := by
  simp [ChatAgent.init, initTemperature, h]

/-- C9 amended witness: a config that omits temperature yields 0.7. -/
theorem init_temperature_passthrough_witness :
    initTemperature (ChatAgent.init cfgK dpNone) =
      some (cfgK.temperature.getD (7 / 10)) :=
  init_temperature_passthrough cfgK dpNone rfl

/-- C1: whenever any step of a turn fails (retrieval, chunking or the model
call — prompt assembly is pure), `process_message` still returns a
well-formed result whose response is the fixed apologetic message — whose
text contains `API limits or connectivity issues`, witnessed by the explicit
decomposition in the last conjunct — with an empty source_documents list,
and the underlying cause is logged; the embedding is a total function, so no
exception escapes. -/
theorem process_message_fallback_on_failure (a : ChatAgent) (p : Provider)
    (m : String) (e : PyError) (h : a.turnError p m = some e) :
    (a.process_message p m).result.response = fallbackResponse ∧
    (a.process_message p m).result.source_documents = [] ∧
    ("Error processing message: " ++ e.msg) ∈ (a.process_message p m).log ∧
    fallbackResponse =
      "I apologize, but I encountered an error processing your message. This might be due to " ++
      "API limits or connectivity issues" ++
      ". Please try again later or contact support if the issue persists." := by
  cases h1 : a.retrievalStep m with
  | error e2 =>
    have he : a.turnError p m = some e2 := by
      unfold ChatAgent.turnError
      rw [h1]
    rw [he, Option.some.injEq] at h
    subst h
    rw [retrievalStep_error_outcome a p m e2 h1]
    exact ⟨rfl, rfl, by simp, rfl⟩
  | ok docs =>
    cases h2 : p (a.turnRequest docs m) with
    | error e2 =>
      have he : a.turnError p m = some e2 := by
        unfold ChatAgent.turnError
        rw [h1]
        show (match p (a.turnRequest docs m) with
          | .error err => some err
          | .ok _ => none) = some e2
        rw [h2]
      rw [he, Option.some.injEq] at h
      subst h
      rw [providerError_outcome a p m docs e2 h1 h2]
      exact ⟨rfl, rfl, by simp, rfl⟩
    | ok text =>
      have he : a.turnError p m = none := by
        unfold ChatAgent.turnError
        rw [h1]
        show (match p (a.turnRequest docs m) with
          | .error err => some err
          | .ok _ => none) = none
        rw [h2]
      rw [he] at h
      exact Option.noConfusion h

/-- C1 witness: a raising retriever at the concrete input `x`. -/
theorem process_message_fallback_on_failure_witness :
    (agentA.process_message providerHi "x").result.response = fallbackResponse ∧
    (agentA.process_message providerHi "x").result.source_documents = [] ∧
    ("Error processing message: " ++ ({ msg := "boom" } : PyError).msg) ∈
      (agentA.process_message providerHi "x").log ∧
    fallbackResponse =
      "I apologize, but I encountered an error processing your message. This might be due to " ++
      "API limits or connectivity issues" ++
      ". Please try again later or contact support if the issue persists." :=
  process_message_fallback_on_failure agentA providerHi "x" { msg := "boom" } rfl

/-- C4 counterexample: `agentA`'s bound retriever raises while the provider
would answer `Hi there`; `process_message` returns the fallback response and
never invokes the model, instead of completing the turn with the model's
response as the claim states. -/
theorem retrieval_failure_aborts_turn :
    (agentA.process_message providerHi "x").providerCalls = 0 ∧
    (agentA.process_message providerHi "x").result.response = fallbackResponse ∧
    (agentA.process_message providerHi "x").result.response ≠ "Hi there" := by
  refine ⟨rfl, rfl, by decide⟩

/-- C4 amended: if the bound retriever (or the chunker) raises during step 1,
`process_message` catches the failure at the turn boundary and returns the
fixed fallback result with empty source_documents and the cause logged; no
exception escapes, but the model is not invoked for that turn and the
response is the fallback, not the model's. -/
theorem retrieval_failure_turns_into_fallback (a : ChatAgent) (p : Provider)
    (m : String) (e : PyError) (h : a.retrievalStep m = .error e) :
    a.process_message p m =
      { result := { response := fallbackResponse, source_documents := [] },
        log := ["Error processing message: " ++ e.msg],
        providerCalls := 0 } :=
  retrievalStep_error_outcome a p m e h

/-- C4 amended witness: the raising retriever at the concrete input `y`. -/
theorem retrieval_failure_turns_into_fallback_witness :
    agentA.process_message providerHi "y" =
      { result := { response := fallbackResponse, source_documents := [] },
        log := ["Error processing message: " ++ ({ msg := "boom" } : PyError).msg],
        providerCalls := 0 } :=
  retrieval_failure_turns_into_fallback agentA providerHi "y" { msg := "boom" } rfl

/-- C5: when every per-turn step succeeds, the result's response equals the
text of the model's top completion and source_documents equals exactly the
ordered chunk list produced by the retrieval step. -/
theorem process_message_success_result (a : ChatAgent) (p : Provider)
    (m : String) (docs : List Document) (text : String)
    (h1 : a.retrievalStep m = .ok docs)
    (h2 : p (a.turnRequest docs m) = .ok text) :
    a.process_message p m =
      { result := { response := text, source_documents := docs },
        log := [], providerCalls := 1 } :=
  providerOk_outcome a p m docs text h1 h2

/-- C5 witness: retrieval yields `[docParis]` and the provider answers. -/
theorem process_message_success_result_witness :
    agentC.process_message providerHi "q" =
      { result := { response := "Hi there", source_documents := [docParis] },
        log := [], providerCalls := 1 } :=
  process_message_success_result agentC providerHi "q" [docParis] "Hi there" rfl rfl

/-- C7: when the provider call fails, the adapter logs the failure and then
propagates the same underlying error to its caller after exactly one
provider invocation — no internal retry. -/
theorem generate_propagates_provider_error (llm : GroqChatModel)
    (p : Provider) (messages : List BaseMessage)
    (stop : Option (List String)) (e : PyError)
    (h : p { model := llm.model, temperature := llm.temperature,
             messages := convertMessages messages, stop := stop } = .error e) :
    llm.generate p messages stop =
      { result := .error e,
        log := ["Error generating response: " ++ e.msg],
        providerCalls := 1 } := by
  simp only [GroqChatModel.generate, h]

/-- C7 witness: a provider failing with a rate-limit error. -/
theorem generate_propagates_provider_error_witness :
    GroqChatModel.generate llmK providerFail [BaseMessage.human "hi"] none =
      { result := .error { msg := "rate limit" },
        log := ["Error generating response: " ++
                  ({ msg := "rate limit" } : PyError).msg],
        providerCalls := 1 } :=
  generate_propagates_provider_error llmK providerFail [BaseMessage.human "hi"]
    none { msg := "rate limit" } rfl

/-- C8: when no retriever is bound, or the bound collaborator lacks the
`get_relevant_context` capability, or the returned context is falsy, the
retrieved context is the empty list and the turn completes normally: the
model is still invoked and, when it answers, the result carries its text
with empty source_documents and no error log. -/
theorem absent_retriever_empty_context (a : ChatAgent) (p : Provider)
    (m : String) (text : String)
    (hmem : a.memory = none ∨
      (∃ mem, a.memory = some mem ∧ mem.get_relevant_context = none) ∨
      (∃ mem grc ctx, a.memory = some mem ∧
        mem.get_relevant_context = some grc ∧
        grc m = .ok ctx ∧ optStrTruthy ctx = false))
    (hp : p (a.turnRequest [] m) = .ok text) :
    a.retrievalStep m = .ok [] ∧
    a.process_message p m =
      { result := { response := text, source_documents := [] },
        log := [], providerCalls := 1 } := by
  have h1 : a.retrievalStep m = .ok [] := by
    rcases hmem with h | ⟨mem, hm, hg⟩ | ⟨mem, grc, ctx, hm, hg, hc, hf⟩
    · simp [ChatAgent.retrievalStep, h]
    · simp [ChatAgent.retrievalStep, hm, hg]
    · simp [ChatAgent.retrievalStep, hm, hg, hc, hf]
  exact ⟨h1, providerOk_outcome a p m [] text h1 hp⟩

/-- C8 witness: no memory bound, provider answers. -/
theorem absent_retriever_empty_context_witness :
    agentD.retrievalStep "x" = .ok [] ∧
    agentD.process_message providerHi "x" =
      { result := { response := "Hi there", source_documents := [] },
        log := [], providerCalls := 1 } :=
  absent_retriever_empty_context agentD providerHi "x" "Hi there" (Or.inl rfl) rfl

/-- C10: when the store returns truthy text but the chunker yields no
chunks, the turn behaves exactly as if no context had been retrieved: the
retrieval step yields the empty list and `process_message` coincides with
that of the same agent with no memory bound, so there is no context block
and source_documents is empty. -/
theorem empty_chunks_behave_as_no_context (a : ChatAgent) (p : Provider)
    (m : String) (mem : Memory)
    (grc : String → Except PyError (Option String)) (ctx : Option String)
    (hm : a.memory = some mem) (hg : mem.get_relevant_context = some grc)
    (hc : grc m = .ok ctx) (ht : optStrTruthy ctx = true)
    (hdp : a.doc_processor (ctx.getD "") = .ok []) :
    a.retrievalStep m = .ok [] ∧
    a.process_message p m = ChatAgent.process_message
      { llm := a.llm, doc_processor := a.doc_processor, memory := none,
        system_prompt := a.system_prompt } p m := by
  have h1 : a.retrievalStep m = .ok [] := by
    simp [ChatAgent.retrievalStep, hm, hg, hc, ht, hdp]
  have h2 : ChatAgent.retrievalStep
      { llm := a.llm, doc_processor := a.doc_processor, memory := none,
        system_prompt := a.system_prompt } m = .ok [] := rfl
  refine ⟨h1, ?_⟩
  unfold ChatAgent.process_message
  rw [h1, h2]

/-- C10 witness: truthy context `ctx` chunked to `[]` by `dpNone`. -/
theorem empty_chunks_behave_as_no_context_witness :
    agentE.retrievalStep "q" = .ok [] ∧
    agentE.process_message providerHi "q" = ChatAgent.process_message
      { llm := agentE.llm, doc_processor := agentE.doc_processor,
        memory := none, system_prompt := agentE.system_prompt }
      providerHi "q" :=
  empty_chunks_behave_as_no_context agentE providerHi "q" memCtx
    (fun _ => .ok (some "ctx")) (some "ctx") rfl rfl rfl rfl rfl
